import Mathlib

/-!
Verification of the aw-watcher-zed event-to-heartbeat pipeline.

The definitions below are a shallow embedding of the two Rust source files:

* `src/activitywatch-ls/src/main.rs` — the language-server watcher.
  Wall-clock instants (`chrono::DateTime<Local>`) are modelled as `Int`
  milliseconds; `TimeDelta::seconds(1)` becomes `INTERVAL = 1000`.
  The `HashMap<String, String>` language cache is modelled as an
  association list with first-match lookup and overwriting insert.
  The external heartbeat call's outcome is an input (`heartbeatOk`);
  the `eprintln!` on failure is modelled by the `loggedError` flag.
* `src/src/lib.rs` — the Zed extension wrapper; only the argument
  construction of `language_server_command` and the clap defaults of
  `main` are relevant here.
-/

/-- Rust `struct Event { uri, is_write, language }` of main.rs. -/
structure Event where
  uri : String
  is_write : Bool
  language : Option String
  deriving Repr, DecidableEq

/-- Rust `struct CurrentFile { uri, timestamp }` of main.rs; this is the
ActivityState of the spec (`lastUri`, `lastTimestamp`). Timestamps are
`Int` milliseconds. -/
structure CurrentFile where
  uri : String
  timestamp : Int
  deriving Repr, DecidableEq

/-- Rust `const INTERVAL: TimeDelta = TimeDelta::seconds(1)`, in ms. -/
def INTERVAL : Int := 1000

/-- Rust `const PULSETIME: f64 = 60_f64`, in whole seconds. -/
def PULSETIME : Nat := 60

/-- Lookup in the `file_languages` map (`HashMap::get`), modelled over an
association list. -/
def lookupLang : List (String × String) → String → Option String
  | [], _ => none
  | (k, v) :: rest, u => if k = u then some v else lookupLang rest u

/-- Insert into the `file_languages` map (`HashMap::insert`): creates the
entry or overwrites an existing one. -/
def insertLang : List (String × String) → String → String → List (String × String)
  | [], u, l => [(u, l)]
  | (k, v) :: rest, u, l => if k = u then (u, l) :: rest else (k, v) :: insertLang rest u l

/-- Mutable fields of `ActivityWatchLanguageServer`: `current_file`
(behind a Mutex), `file_languages` (behind a Mutex), `project`
(an ArcSwap of Option). -/
structure ServerState where
  current_file : CurrentFile
  file_languages : List (String × String)
  project : Option String
  deriving Repr, DecidableEq

/-- The `aw_client_rust::Event` built in `send`: timestamp `now.to_utc()`
(the same instant, so modelled by the same `Int`), `TimeDelta::zero()`
duration, and the data map with key `file` always present and the
optional `project` and `language` keys. -/
structure HeartbeatPayload where
  timestamp : Int
  duration : Int
  file : String
  project : Option String
  language : Option String
  deriving Repr, DecidableEq

/-- Observable outcome of one call to `send`: the payload handed to
`aw_client.heartbeat` (`none` when the event was suppressed), whether the
failure branch printed to stderr, and the server state afterwards. -/
structure SendOutcome where
  emitted : Option HeartbeatPayload
  loggedError : Bool
  state : ServerState
  deriving Repr, DecidableEq

/-- The early-return condition of `send` in main.rs:
`event.uri == current_file.uri && now - current_file.timestamp < INTERVAL
&& event.is_write`. -/
def shouldSuppress (cf : CurrentFile) (e : Event) (now : Int) : Bool :=
  decide (e.uri = cf.uri) && decide (now - cf.timestamp < INTERVAL) && e.is_write

/-- The `language` binding of `send`: `match event.language { Some(l) =>
Some(l), None => file_languages.get(&event.uri).cloned() }`. -/
def resolveLanguage (e : Event) (cache : List (String × String)) : Option String :=
  match e.language with
  | some l => some l
  | none => lookupLang cache e.uri

/-- The payload construction of `send`: `file` from the event uri,
`project` from the ArcSwap, `language` from `resolveLanguage`, duration
zero, timestamp `now.to_utc()`. -/
def buildPayload (st : ServerState) (e : Event) (now : Int) : HeartbeatPayload :=
  { timestamp := now
    duration := 0
    file := e.uri
    project := st.project
    language := resolveLanguage e st.file_languages }

/-- `ActivityWatchLanguageServer::send`. On suppression it returns at
once; otherwise it builds the payload, attempts the heartbeat (logging
on `Err` without retrying or propagating), and then unconditionally sets
`current_file.uri = event.uri` and `current_file.timestamp = now`. -/
def send (st : ServerState) (e : Event) (now : Int) (heartbeatOk : Bool) : SendOutcome :=
  if shouldSuppress st.current_file e now then
    { emitted := none, loggedError := false, state := st }
  else
    { emitted := some (buildPayload st e now)
      loggedError := !heartbeatOk
      state := { st with current_file := { uri := e.uri, timestamp := now } } }

/-- Parameters of the `did_open` handler in main.rs (the text document's
uri and `language_id`). -/
structure DidOpenParams where
  uri : String
  language_id : String
  deriving Repr, DecidableEq

/-- The `did_open` handler of main.rs (present in the source as the
commented-out `LanguageServer` impl): it inserts `uri -> language_id`
into `file_languages`; the forwarding of the open event to `send` is
disabled (`// self.send(event).await;`), so the handler only writes the
cache. -/
def did_open (st : ServerState) (p : DidOpenParams) : ServerState :=
  { st with file_languages := insertLang st.file_languages p.uri p.language_id }

/-- Observable startup behaviour of `main` in main.rs: whether one of the
two fatal-error `eprintln!` diagnostics ran, and whether control reached
`main_loop`. -/
structure StartupTrace where
  printedDiagnostic : Bool
  enteredMainLoop : Bool
  deriving Repr, DecidableEq

/-- The startup sequence of `main`: `AwClient::new` failing prints a
diagnostic and returns; `create_bucket_simple` failing prints a
diagnostic and returns; `connection.initialize` failing returns without
one of those diagnostics; otherwise `main_loop` runs. The three booleans
are the outcomes of the three fallible external calls, in program
order. -/
def mainStartup (connectOk bucketOk initializeOk : Bool) : StartupTrace :=
  if connectOk = false then
    { printedDiagnostic := true, enteredMainLoop := false }
  else if bucketOk = false then
    { printedDiagnostic := true, enteredMainLoop := false }
  else if initializeOk = false then
    { printedDiagnostic := false, enteredMainLoop := false }
  else
    { printedDiagnostic := false, enteredMainLoop := true }

/-- Rust `struct Configuration { host: Option<String>, port: Option<u16> }`
of lib.rs. -/
structure Configuration where
  host : Option String
  port : Option Nat
  deriving Repr, DecidableEq

/-- The host part of the argument list built in `language_server_command`. -/
def hostArgs (c : Configuration) : List String :=
  match c.host with
  | some h => ["--host", h]
  | none => []

/-- The port part of the argument list built in `language_server_command`. -/
def portArgs (c : Configuration) : List String :=
  match c.port with
  | some p => ["--port", toString p]
  | none => []

/-- The `args` match of `language_server_command` in lib.rs, together
with whether the deserialization-failure branch printed its log line.
`none` models absent `lsp_settings.settings`; `some (Except.error _)`
models settings that fail to deserialize into `Configuration` (the
branch logs and yields an empty list, it does not return `Err`);
`some (Except.ok c)` models a successful parse. -/
def argsFromSettings : Option (Except String Configuration) → List String × Bool
  | none => ([], false)
  | some (Except.error _) => ([], true)
  | some (Except.ok c) => (hostArgs c ++ portArgs c, false)

/-- Value of a `--flag value` pair in an argument list, with the clap
`default_value` when the flag is absent; models the declarative clap
setup of `main` in main.rs. -/
def argValue (flag dflt : String) : List String → String
  | [] => dflt
  | [_] => dflt
  | a :: v :: rest => if a = flag then v else argValue flag dflt (v :: rest)

/-- The host the server binary runs with: `--host` or the clap default
`"localhost"`. -/
def serverHost (args : List String) : String :=
  argValue "--host" "localhost" args

/-- The port argument the server binary runs with: `--port` or the clap
default `"5600"` (clap then parses it as u16). -/
def serverPortArg (args : List String) : String :=
  argValue "--port" "5600" args

/-! Helper lemmas shared by the claim theorems. -/

theorem shouldSuppress_eq_true_iff (cf : CurrentFile) (e : Event) (now : Int) :
    shouldSuppress cf e now = true ↔
      e.uri = cf.uri ∧ now - cf.timestamp < INTERVAL ∧ e.is_write = true := by
  simp [shouldSuppress, and_assoc]

theorem lookupLang_insertLang_self (c : List (String × String)) (u l : String) :
    lookupLang (insertLang c u l) u = some l := by
  induction c with
  | nil => simp [insertLang, lookupLang]
  | cons kv rest ih =>
    obtain ⟨k, v⟩ := kv
    by_cases h : k = u
    · simp [insertLang, lookupLang, h]
    · simp [insertLang, lookupLang, h, ih]

theorem send_emitted_of_not_suppress (st : ServerState) (e : Event) (now : Int)
    (ok : Bool) (h : ¬ shouldSuppress st.current_file e now = true) :
    send st e now ok = { emitted := some (buildPayload st e now)
                         loggedError := !ok
                         state := { st with current_file := { uri := e.uri, timestamp := now } } } := by
  simp [send, h]

theorem send_of_suppress (st : ServerState) (e : Event) (now : Int) (ok : Bool)
    (h : shouldSuppress st.current_file e now = true) :
    send st e now ok = { emitted := none, loggedError := false, state := st } := by
  simp [send, h]

/-! Claim theorems. -/

/-- C1: `send` suppresses an incoming event (emits no heartbeat) iff the
event's uri equals the stored uri, the elapsed time is strictly below
INTERVAL, and the event is a write; in particular every non-write event
proceeds to emission. -/
theorem send_suppresses_iff (st : ServerState) (e : Event) (now : Int) (ok : Bool) :
    ((send st e now ok).emitted = none ↔
      e.uri = st.current_file.uri ∧ now - st.current_file.timestamp < INTERVAL ∧
        e.is_write = true)
    ∧ (e.is_write = false → (send st e now ok).emitted ≠ none) := by
  have hiff := shouldSuppress_eq_true_iff st.current_file e now
  by_cases hcase : shouldSuppress st.current_file e now = true
  · have hemit : (send st e now ok).emitted = none := by simp [send, hcase]
    refine ⟨⟨fun _ => hiff.mp hcase, fun _ => hemit⟩, ?_⟩
    intro hw
    have h3 := (hiff.mp hcase).2.2
    rw [hw] at h3
    exact absurd h3 (by decide)
  · have hemit : (send st e now ok).emitted = some (buildPayload st e now) := by
      simp [send, hcase]
    refine ⟨⟨?_, ?_⟩, ?_⟩
    · intro hnone
      rw [hemit] at hnone
      exact absurd hnone (by simp)
    · intro hp
      exact absurd (hiff.mpr hp) hcase
    · intro _ hnone
      rw [hemit] at hnone
      exact absurd hnone (by simp)

/-- C1 witness: a non-write event for an already-current file within the
window still proceeds. -/
theorem send_suppresses_iff_witness :
    (send ⟨⟨"a", 0⟩, [], none⟩ ⟨"a", false, none⟩ 0 true).emitted ≠ none :=
  (send_suppresses_iff ⟨⟨"a", 0⟩, [], none⟩ ⟨"a", false, none⟩ 0 true).2 rfl

/-- C2: when the heartbeat call fails on a proceeding event, `send` logs
the error, updates the state exactly as on success (no rollback, no
retry, no propagation), and a subsequent save for the same uri within
INTERVAL is suppressed. -/
theorem send_failure_updates_state (st : ServerState) (e : Event) (now : Int)
    (h : shouldSuppress st.current_file e now = false) :
    (send st e now false).loggedError = true
    ∧ (send st e now false).state = (send st e now true).state
    ∧ (send st e now false).state.current_file = ⟨e.uri, now⟩
    ∧ ∀ now2 l2 ok2, now2 - now < INTERVAL →
        (send (send st e now false).state ⟨e.uri, true, l2⟩ now2 ok2).emitted = none := by
  have hb : ¬ shouldSuppress st.current_file e now = true := by simp [h]
  have hstate : (send st e now false).state.current_file = ⟨e.uri, now⟩ := by
    simp [send, hb]
  refine ⟨by simp [send, hb], by simp [send, hb], hstate, ?_⟩
  intro now2 l2 ok2 hlt
  have hsup : shouldSuppress (send st e now false).state.current_file
      ⟨e.uri, true, l2⟩ now2 = true := by
    rw [hstate, shouldSuppress_eq_true_iff]
    exact ⟨rfl, hlt, rfl⟩
  rw [send_of_suppress _ _ _ _ hsup]

/-- C2 witness: a failing call for "a" at t=0 still updates the state, so
a save of "a" at t=500ms is suppressed just as if the call had
succeeded. -/
theorem send_failure_updates_state_witness :
    (send (send ⟨⟨"", 0⟩, [], none⟩ ⟨"a", true, none⟩ 0 false).state
        ⟨"a", true, none⟩ 500 true).emitted = none :=
  (send_failure_updates_state ⟨⟨"", 0⟩, [], none⟩ ⟨"a", true, none⟩ 0
      (by decide)).2.2.2 500 none true (by decide)

/-- C3: with the startup sentinel (stored uri is the empty string), every
event carrying a non-empty uri proceeds to emission, whatever its kind. -/
theorem cold_start_proceeds (st : ServerState) (e : Event) (now : Int) (ok : Bool)
    (hsent : st.current_file.uri = "") (hne : e.uri ≠ "") :
    (send st e now ok).emitted = some (buildPayload st e now) := by
  have h : ¬ shouldSuppress st.current_file e now = true := by
    intro hT
    have h1 := ((shouldSuppress_eq_true_iff st.current_file e now).mp hT).1
    rw [hsent] at h1
    exact hne h1
  simp [send, h]

/-- C3 witness: the very first save of a session yields a heartbeat
attempt. -/
theorem cold_start_proceeds_witness :
    (send ⟨⟨"", 0⟩, [], none⟩ ⟨"a", true, none⟩ 0 true).emitted
      = some (buildPayload ⟨⟨"", 0⟩, [], none⟩ ⟨"a", true, none⟩ 0) :=
  cold_start_proceeds ⟨⟨"", 0⟩, [], none⟩ ⟨"a", true, none⟩ 0 true rfl (by decide)

/-- C4: language precedence of an emitted payload — the event's own tag
when present; otherwise the cache entry for the event's uri when one
exists; otherwise the language field is omitted. -/
theorem language_precedence (st : ServerState) (e : Event) (now : Int) (ok : Bool)
    (p : HeartbeatPayload) (h : (send st e now ok).emitted = some p) :
    (∀ l, e.language = some l → p.language = some l)
    ∧ (e.language = none →
        ∀ l, lookupLang st.file_languages e.uri = some l → p.language = some l)
    ∧ (e.language = none → lookupLang st.file_languages e.uri = none →
        p.language = none) := by
  have hp : p = buildPayload st e now := by
    by_cases hs : shouldSuppress st.current_file e now = true
    · simp [send, hs] at h
    · rw [send_emitted_of_not_suppress st e now ok hs] at h
      simpa using h.symm
  subst hp
  refine ⟨?_, ?_, ?_⟩
  · intro l hl
    simp [buildPayload, resolveLanguage, hl]
  · intro hl l hc
    simp [buildPayload, resolveLanguage, hl, hc]
  · intro hl hc
    simp [buildPayload, resolveLanguage, hl, hc]

/-- C4 witness: a save for "a" with no explicit language resolves to the
cached "rust" written by an earlier open. -/
theorem language_precedence_witness :
    (⟨5, 0, "a", none, some "rust"⟩ : HeartbeatPayload).language = some "rust" :=
  (language_precedence ⟨⟨"", 0⟩, [("a", "rust")], none⟩ ⟨"a", true, none⟩ 5 true
      ⟨5, 0, "a", none, some "rust"⟩ (by decide)).2.1 rfl "rust" (by decide)

/-- C5: every emitted payload has zero duration, the sampled wall-clock
timestamp (to_utc preserves the instant), the event's uri as its `file`
key, the project key exactly when ProjectContext is set, and the
language key exactly when a language is resolvable. -/
theorem payload_shape (st : ServerState) (e : Event) (now : Int) (ok : Bool)
    (p : HeartbeatPayload) (h : (send st e now ok).emitted = some p) :
    p.duration = 0 ∧ p.timestamp = now ∧ p.file = e.uri
    ∧ p.project = st.project
    ∧ p.language = resolveLanguage e st.file_languages
    ∧ (p.project.isSome ↔ st.project.isSome)
    ∧ (p.language.isSome ↔ (resolveLanguage e st.file_languages).isSome) := by
  have hp : p = buildPayload st e now := by
    by_cases hs : shouldSuppress st.current_file e now = true
    · simp [send, hs] at h
    · rw [send_emitted_of_not_suppress st e now ok hs] at h
      simpa using h.symm
  subst hp
  exact ⟨rfl, rfl, rfl, rfl, rfl, Iff.rfl, Iff.rfl⟩

/-- C5 witness: the payload of a cold-start save has zero duration and
the event's uri in its file field. -/
theorem payload_shape_witness :
    (⟨7, 0, "a", some "proj", none⟩ : HeartbeatPayload).duration = 0 :=
  (payload_shape ⟨⟨"", 0⟩, [], some "proj"⟩ ⟨"a", true, none⟩ 7 true
      ⟨7, 0, "a", some "proj", none⟩ (by decide)).1

/-- C6: when the filter suppresses, `send` performs no observable action:
no payload, no error log, and the state is returned unchanged. -/
theorem suppress_frame (st : ServerState) (e : Event) (now : Int) (ok : Bool)
    (h : shouldSuppress st.current_file e now = true) :
    send st e now ok = { emitted := none, loggedError := false, state := st } := by
  simp [send, h]

/-- C6 witness: a repeated save of "a" 500ms after the last report leaves
everything untouched. -/
theorem suppress_frame_witness :
    send ⟨⟨"a", 0⟩, [], none⟩ ⟨"a", true, none⟩ 500 true
      = { emitted := none, loggedError := false, state := ⟨⟨"a", 0⟩, [], none⟩ } :=
  suppress_frame ⟨⟨"a", 0⟩, [], none⟩ ⟨"a", true, none⟩ 500 true (by decide)

/-- C7: if creating the AwClient fails or creating the bucket fails,
`main` prints a diagnostic and returns before `main_loop`, whatever the
later initialize step would have done. -/
theorem startup_failure_exits (connectOk bucketOk initializeOk : Bool)
    (h : connectOk = false ∨ bucketOk = false) :
    (mainStartup connectOk bucketOk initializeOk).printedDiagnostic = true
    ∧ (mainStartup connectOk bucketOk initializeOk).enteredMainLoop = false := by
  rcases h with h | h
  · simp [mainStartup, h]
  · subst h
    cases connectOk <;> simp [mainStartup]

/-- C7 witness: a failed connection surfaces a diagnostic and the main
loop never starts. -/
theorem startup_failure_exits_witness :
    (mainStartup false true true).printedDiagnostic = true
    ∧ (mainStartup false true true).enteredMainLoop = false :=
  startup_failure_exits false true true (Or.inl rfl)

/-- C8: `did_open` writes the uri → language_id pair into the cache
(creating or overwriting the entry), and `send` never touches the cache,
so the write stands whether or not the open event is forwarded to the
heartbeat pipeline. -/
theorem did_open_populates_cache (st : ServerState) (p : DidOpenParams)
    (e : Event) (now : Int) (ok : Bool) :
    lookupLang (did_open st p).file_languages p.uri = some p.language_id
    ∧ (send (did_open st p) e now ok).state.file_languages
        = (did_open st p).file_languages := by
  refine ⟨lookupLang_insertLang_self _ _ _, ?_⟩
  by_cases hs : shouldSuppress (did_open st p).current_file e now = true <;>
    simp [send, hs]

/-- C9: each `send` leaves the stored timestamp unchanged or replaces it
with `now`; under a non-decreasing clock the stored timestamp never
decreases. -/
theorem lastTimestamp_monotone (st : ServerState) (e : Event) (now : Int) (ok : Bool)
    (h : st.current_file.timestamp ≤ now) :
    st.current_file.timestamp ≤ (send st e now ok).state.current_file.timestamp := by
  by_cases hs : shouldSuppress st.current_file e now = true
  · simp [send, hs]
  · simpa [send, hs] using h

/-- C9 witness: processing an event at a later clock reading moves the
stored timestamp forward, never backward. -/
theorem lastTimestamp_monotone_witness :
    (⟨⟨"", 0⟩, [], none⟩ : ServerState).current_file.timestamp
      ≤ (send ⟨⟨"", 0⟩, [], none⟩ ⟨"a", false, none⟩ 7 true).state.current_file.timestamp :=
  lastTimestamp_monotone ⟨⟨"", 0⟩, [], none⟩ ⟨"a", false, none⟩ 7 true (by decide)

/-- C10: settings that fail to deserialize produce a logged parse error
and an empty argument list rather than an error return, and with no
arguments the server binary falls back to host "localhost" and port
5600. -/
theorem settings_parse_error_defaults (err : String) :
    (argsFromSettings (some (Except.error err))).1 = []
    ∧ (argsFromSettings (some (Except.error err))).2 = true
    ∧ serverHost (argsFromSettings (some (Except.error err))).1 = "localhost"
    ∧ serverPortArg (argsFromSettings (some (Except.error err))).1 = "5600" :=
  ⟨rfl, rfl, rfl, rfl⟩
